import Mathlib

/-!
Verification development for the rust-memo library: three lazy memoization
cell variants (Memo in memo.rs, AliasableMemo in aliasable_memo.rs,
ThreadsafeMemo in threadsafe_memo.rs), shallowly embedded as pure state
transformers.  A producer is a value of an abstract type F interpreted by a
fixed semantics run : F -> POut T; a producer call either returns a value or
unwinds (panics).  Operations return their observable outcome, the cell
state after the call (including after a caught unwind), and the number of
producer invocations performed, so that memoization counts are provable.
The ThreadsafeMemo embedding follows the single-thread executions of the
atomic protocol: a compare-and-swap performed while no other thread runs
succeeds exactly when the loaded word matches, and the Finish guard drop
publishes the destination state on every exit path, unwinding included.
-/

/-- Outcome of invoking a producer: a value, or an unwind (panic). -/
inductive POut (T : Type) where
  | ok (v : T)
  | panic
deriving DecidableEq, Repr

/-- Observable outcome of a get call on any of the three variants.
ok and errPoisoned are ordinary returns; producerPanic is an unwind out of
the producer; invalidPanic is an unwrap or assertion failure; reentryPanic
is the AliasableMemo reentry panic; blocked marks the ThreadsafeMemo
waiter branch, which parks forever in a single-thread execution. -/
inductive GetOut (T : Type) where
  | ok (v : T)
  | errPoisoned
  | producerPanic
  | invalidPanic
  | reentryPanic
  | blocked
deriving DecidableEq, Repr

/-- Observable outcome of a consuming take. -/
inductive TakeOut (T : Type) where
  | ok (v : T)
  | errPoisoned
  | producerPanic
  | invalidPanic
deriving DecidableEq, Repr

/-- Observable outcome of try_get / try_take on ThreadsafeMemo:
Ok(Option) or the poisoned Err, plus the invalid-state panic of try_take. -/
inductive TryOut (T : Type) where
  | ok (o : Option T)
  | errPoisoned
  | invalidPanic
deriving DecidableEq, Repr

/-! ## Memo (memo.rs): single-owner lazy value -/

/-- Interior of Memo: an optional producer and an optional cached value. -/
structure Memo (T F : Type) where
  func : Option F
  value : Option T
deriving DecidableEq, Repr

/-- Memo::new -/
def Memo.new (f : F) : Memo T F := ⟨some f, none⟩

/-- Memo::with_value -/
def Memo.with_value (v : T) : Memo T F := ⟨none, some v⟩

/-- Memo::get (mutable receiver): if the producer is present, take it,
invoke it and store its result; then unwrap the stored value.  A producer
unwind propagates with the producer slot already emptied by take(). -/
def Memo.get (run : F → POut T) (m : Memo T F) : GetOut T × Memo T F × Nat :=
  match m.func with
  | some f =>
    match run f with
    | POut.ok v => (GetOut.ok v, ⟨none, some v⟩, 1)
    | POut.panic => (GetOut.producerPanic, ⟨none, m.value⟩, 1)
  | none =>
    match m.value with
    | some v => (GetOut.ok v, m, 0)
    | none => (GetOut.invalidPanic, m, 0)

/-- Memo::try_get: value.as_ref() -/
def Memo.try_get (m : Memo T F) : Option T := m.value

/-- Memo::take (consuming): (Some func, None) invokes the producer,
(None, Some value) returns the value, anything else panics. -/
def Memo.take (run : F → POut T) (m : Memo T F) : TakeOut T × Nat :=
  match m.func, m.value with
  | some f, none =>
    match run f with
    | POut.ok v => (TakeOut.ok v, 1)
    | POut.panic => (TakeOut.producerPanic, 1)
  | none, some v => (TakeOut.ok v, 0)
  | _, _ => (TakeOut.invalidPanic, 0)

/-- Memo::try_take (consuming): self.value -/
def Memo.try_take (m : Memo T F) : Option T := m.value

/-! ## AliasableMemo (aliasable_memo.rs): shared-reference lazy value -/

/-- The CalculatingState enum of aliasable_memo.rs. -/
inductive CalculatingState where
  | Uncalculated
  | Calculating
  | Calculated
deriving DecidableEq, Repr

/-- AliasableMemo: a calculating flag plus an interior Memo. -/
structure AliasableMemo (T F : Type) where
  calculating_state : CalculatingState
  memo : Memo T F
deriving DecidableEq, Repr

/-- AliasableMemo::new -/
def AliasableMemo.new (f : F) : AliasableMemo T F :=
  ⟨CalculatingState.Uncalculated, Memo.new f⟩

/-- AliasableMemo::with_value -/
def AliasableMemo.with_value (v : T) : AliasableMemo T F :=
  ⟨CalculatingState.Calculated, Memo.with_value v⟩

/-- AliasableMemo::try_get: None unless the flag is Calculated, in which
case defer to the interior try_get.  Note the Calculating arm returns None;
it does not panic. -/
def AliasableMemo.try_get (m : AliasableMemo T F) : Option T :=
  match m.calculating_state with
  | CalculatingState.Uncalculated => none
  | CalculatingState.Calculating => none
  | CalculatingState.Calculated => m.memo.try_get

/-- AliasableMemo::get: first try_get; on None, panic if the flag is
Calculating (reentry), otherwise set the flag to Calculating, run the
interior get, and set the flag to Calculated on success.  An unwind out of
the interior get leaves the flag at Calculating: there is no guard. -/
def AliasableMemo.get (run : F → POut T) (m : AliasableMemo T F) :
    GetOut T × AliasableMemo T F × Nat :=
  match m.try_get with
  | some v => (GetOut.ok v, m, 0)
  | none =>
    match m.calculating_state with
    | CalculatingState.Calculating => (GetOut.reentryPanic, m, 0)
    | _ =>
      match Memo.get run m.memo with
      | (GetOut.ok v, inner, n) =>
          (GetOut.ok v, ⟨CalculatingState.Calculated, inner⟩, n)
      | (out, inner, n) =>
          (out, ⟨CalculatingState.Calculating, inner⟩, n)

/-- AliasableMemo::take: defer to the interior take. -/
def AliasableMemo.take (run : F → POut T) (m : AliasableMemo T F) :
    TakeOut T × Nat :=
  m.memo.take run

/-- AliasableMemo::try_take: defer to the interior try_take. -/
def AliasableMemo.try_take (m : AliasableMemo T F) : Option T :=
  m.memo.try_take

/-! ## ThreadsafeMemo (threadsafe_memo.rs) -/

/-- State-word tag UNCALCULATED. -/
def UNCALCULATED : Nat := 1
/-- State-word tag WORKING (zero so upper bits can carry the waiter head). -/
def WORKING : Nat := 0
/-- State-word tag CALCULATED. -/
def CALCULATED : Nat := 2
/-- State-word tag POISONED. -/
def POISONED : Nat := 3
/-- Two-bit tag mask. -/
def STATE_MASK : Nat := 3

/-- ThreadsafeMemoCore: the UnsafeCell interior. -/
structure ThreadsafeMemoCore (T F : Type) where
  func : Option F
  value : Option T
deriving DecidableEq, Repr

/-- ThreadsafeMemo: the atomic state word plus the interior. -/
structure ThreadsafeMemo (T F : Type) where
  state : Nat
  core : ThreadsafeMemoCore T F
deriving DecidableEq, Repr

/-- ThreadsafeMemo::new -/
def ThreadsafeMemo.new (f : F) : ThreadsafeMemo T F :=
  ⟨UNCALCULATED, ⟨some f, none⟩⟩

/-- ThreadsafeMemo::with_value -/
def ThreadsafeMemo.with_value (v : T) : ThreadsafeMemo T F :=
  ⟨CALCULATED, ⟨none, some v⟩⟩

/-- ThreadsafeMemo::get, single-thread execution.  POISONED returns Err;
CALCULATED unwraps the value slot; UNCALCULATED wins the compare-and-swap
into WORKING (nobody else runs), arms the Finish guard with destination
POISONED, takes the producer out of the interior, invokes it, stores the
result, promotes the destination to CALCULATED and publishes on scope
exit — an unwind publishes POISONED with the producer slot already empty.
A WORKING tag parks the caller, which in a single-thread execution never
gets signaled (blocked); any other word fails the tag assertion. -/
def ThreadsafeMemo.get (run : F → POut T) (m : ThreadsafeMemo T F) :
    GetOut T × ThreadsafeMemo T F × Nat :=
  if m.state = POISONED then (GetOut.errPoisoned, m, 0)
  else if m.state = CALCULATED then
    match m.core.value with
    | some v => (GetOut.ok v, m, 0)
    | none => (GetOut.invalidPanic, m, 0)
  else if m.state = UNCALCULATED then
    match m.core.func with
    | some f =>
      match run f with
      | POut.ok v => (GetOut.ok v, ⟨CALCULATED, ⟨none, some v⟩⟩, 1)
      | POut.panic =>
          (GetOut.producerPanic, ⟨POISONED, ⟨none, m.core.value⟩⟩, 1)
    | none => (GetOut.invalidPanic, ⟨POISONED, ⟨none, m.core.value⟩⟩, 0)
  else if m.state % 4 = WORKING then (GetOut.blocked, m, 0)
  else (GetOut.invalidPanic, m, 0)

/-- ThreadsafeMemo::try_get: a single acquire load; POISONED is Err,
CALCULATED returns Ok of the value slot as-is (as_ref, no unwrap), anything
else Ok(None).  The cell is returned unchanged, and no producer runs. -/
def ThreadsafeMemo.try_get (m : ThreadsafeMemo T F) :
    TryOut T × ThreadsafeMemo T F × Nat :=
  if m.state = POISONED then (TryOut.errPoisoned, m, 0)
  else if m.state = CALCULATED then (TryOut.ok m.core.value, m, 0)
  else (TryOut.ok none, m, 0)

/-- ThreadsafeMemo::take (consuming): match on (state, core); POISONED is
Err for any interior, (UNCALCULATED, (Some func, None)) invokes the
producer, (CALCULATED, (None, Some value)) returns the value, every other
combination panics with the invalid-state message. -/
def ThreadsafeMemo.take (run : F → POut T) (m : ThreadsafeMemo T F) :
    TakeOut T × Nat :=
  if m.state = POISONED then (TakeOut.errPoisoned, 0)
  else if m.state = UNCALCULATED then
    match m.core.func, m.core.value with
    | some f, none =>
      match run f with
      | POut.ok v => (TakeOut.ok v, 1)
      | POut.panic => (TakeOut.producerPanic, 1)
    | _, _ => (TakeOut.invalidPanic, 0)
  else if m.state = CALCULATED then
    match m.core.func, m.core.value with
    | none, some v => (TakeOut.ok v, 0)
    | _, _ => (TakeOut.invalidPanic, 0)
  else (TakeOut.invalidPanic, 0)

/-- ThreadsafeMemo::try_take (consuming): POISONED is Err for any interior,
UNCALCULATED is Ok(None) for any interior, (CALCULATED, (None, Some value))
is Ok(Some value), every other combination panics. -/
def ThreadsafeMemo.try_take (m : ThreadsafeMemo T F) : TryOut T × Nat :=
  if m.state = POISONED then (TryOut.errPoisoned, 0)
  else if m.state = UNCALCULATED then (TryOut.ok none, 0)
  else if m.state = CALCULATED then
    match m.core.func, m.core.value with
    | none, some v => (TryOut.ok (some v), 0)
    | _, _ => (TryOut.invalidPanic, 0)
  else (TryOut.invalidPanic, 0)

/-- ThreadsafeMemo::unpoison: compare-and-swap POISONED to WORKING.  On
success (single-thread: exactly when the word is POISONED) arm the Finish
guard, overwrite the interior with (Some func, None), promote the
destination to UNCALCULATED and publish; return true.  On failure return
false with the cell untouched. -/
def ThreadsafeMemo.unpoison (m : ThreadsafeMemo T F) (f : F) :
    Bool × ThreadsafeMemo T F :=
  if m.state = POISONED then (true, ⟨UNCALCULATED, ⟨some f, none⟩⟩)
  else (false, m)

/-- ThreadsafeMemo::unpoison_with_value: compare-and-swap POISONED to
WORKING.  On success overwrite the interior with (None, Some value),
promote the destination to CALCULATED and publish; return true.  On
failure return false with the cell untouched. -/
def ThreadsafeMemo.unpoison_with_value (m : ThreadsafeMemo T F) (v : T) :
    Bool × ThreadsafeMemo T F :=
  if m.state = POISONED then (true, ⟨CALCULATED, ⟨none, some v⟩⟩)
  else (false, m)

/-- Iterated get: perform n successive get calls, returning the final cell
and the total number of producer invocations. -/
def ThreadsafeMemo.getIter (run : F → POut T) (m : ThreadsafeMemo T F) :
    Nat → ThreadsafeMemo T F × Nat
  | 0 => (m, 0)
  | Nat.succ n =>
    match ThreadsafeMemo.get run m with
    | (_, m1, c1) =>
      match ThreadsafeMemo.getIter run m1 n with
      | (m2, c2) => (m2, c1 + c2)

/-- Cell states reachable from the two constructors through the public
non-consuming operations, with producers interpreted by run. -/
inductive ThreadsafeMemo.Reachable (run : F → POut T) :
    ThreadsafeMemo T F → Prop where
  | new (f : F) : ThreadsafeMemo.Reachable run (ThreadsafeMemo.new f)
  | with_value (v : T) :
      ThreadsafeMemo.Reachable run (ThreadsafeMemo.with_value v)
  | get {m : ThreadsafeMemo T F} :
      ThreadsafeMemo.Reachable run m →
      ThreadsafeMemo.Reachable run (ThreadsafeMemo.get run m).2.1
  | try_get {m : ThreadsafeMemo T F} :
      ThreadsafeMemo.Reachable run m →
      ThreadsafeMemo.Reachable run (ThreadsafeMemo.try_get m).2.1
  | unpoison {m : ThreadsafeMemo T F} (f : F) :
      ThreadsafeMemo.Reachable run m →
      ThreadsafeMemo.Reachable run (ThreadsafeMemo.unpoison m f).2
  | unpoison_with_value {m : ThreadsafeMemo T F} (v : T) :
      ThreadsafeMemo.Reachable run m →
      ThreadsafeMemo.Reachable run (ThreadsafeMemo.unpoison_with_value m v).2

/-- The interior shape actually maintained by the code: UNCALCULATED holds
(producer, no value), CALCULATED holds (no producer, value), and POISONED
holds (no producer, no value) — the producer slot was emptied by take()
before the failed invocation and no value was ever stored. -/
def ThreadsafeMemo.Wf (m : ThreadsafeMemo T F) : Prop :=
  (m.state = UNCALCULATED ∧ m.core.func.isSome = true ∧ m.core.value = none) ∨
  (m.state = CALCULATED ∧ m.core.func = none ∧ m.core.value.isSome = true) ∨
  (m.state = POISONED ∧ m.core.func = none ∧ m.core.value = none)

/-- The interior shape the spec claims for every legal state: exactly one
of (producer present, result absent) or (producer absent, result present),
the redundant slot empty. -/
def specInteriorShape (m : ThreadsafeMemo T F) : Prop :=
  (m.core.func.isSome = true ∧ m.core.value = none) ∨
  (m.core.func = none ∧ m.core.value.isSome = true)

/-- Producer semantics used by concrete witnesses: every producer code
returns 212. -/
def runConst : Nat → POut Nat := fun _ => POut.ok 212

/-- Producer semantics used by concrete counterexamples: every producer
code panics. -/
def runPanic : Nat → POut Nat := fun _ => POut.panic

/-! ## Invariant helpers -/

/-- try_get returns the cell unchanged in every branch. -/
theorem ThreadsafeMemo.try_get_frame (m : ThreadsafeMemo T F) :
    (ThreadsafeMemo.try_get m).2.1 = m ∧ (ThreadsafeMemo.try_get m).2.2 = 0 := by
  unfold ThreadsafeMemo.try_get
  split
  · exact ⟨rfl, rfl⟩
  · split
    · exact ⟨rfl, rfl⟩
    · exact ⟨rfl, rfl⟩

/-- get preserves the interior-shape invariant. -/
theorem ThreadsafeMemo.wf_get (run : F → POut T) (m : ThreadsafeMemo T F)
    (h : m.Wf) : ThreadsafeMemo.Wf (ThreadsafeMemo.get run m).2.1 := by
  rcases h with ⟨h1, h2, h3⟩ | ⟨h1, h2, h3⟩ | ⟨h1, h2, h3⟩
  · obtain ⟨f, hf⟩ := Option.isSome_iff_exists.mp h2
    cases hr : run f with
    | ok v =>
      simp [ThreadsafeMemo.get, ThreadsafeMemo.Wf, h1, hf, h3, hr,
        UNCALCULATED, CALCULATED, POISONED]
    | panic =>
      simp [ThreadsafeMemo.get, ThreadsafeMemo.Wf, h1, hf, h3, hr,
        UNCALCULATED, CALCULATED, POISONED]
  · obtain ⟨v, hv⟩ := Option.isSome_iff_exists.mp h3
    simp [ThreadsafeMemo.get, ThreadsafeMemo.Wf, h1, h2, hv,
      UNCALCULATED, CALCULATED, POISONED]
  · simp [ThreadsafeMemo.get, ThreadsafeMemo.Wf, h1, h2, h3,
      UNCALCULATED, CALCULATED, POISONED]

/-- unpoison preserves the interior-shape invariant. -/
theorem ThreadsafeMemo.wf_unpoison (m : ThreadsafeMemo T F) (f : F)
    (h : m.Wf) : ThreadsafeMemo.Wf (ThreadsafeMemo.unpoison m f).2 := by
  unfold ThreadsafeMemo.unpoison
  split
  · simp [ThreadsafeMemo.Wf, UNCALCULATED, CALCULATED, POISONED]
  · exact h

/-- unpoison_with_value preserves the interior-shape invariant. -/
theorem ThreadsafeMemo.wf_unpoison_with_value (m : ThreadsafeMemo T F)
    (v : T) (h : m.Wf) :
    ThreadsafeMemo.Wf (ThreadsafeMemo.unpoison_with_value m v).2 := by
  unfold ThreadsafeMemo.unpoison_with_value
  split
  · simp [ThreadsafeMemo.Wf, UNCALCULATED, CALCULATED, POISONED]
  · exact h

/-- Every reachable cell satisfies the interior-shape invariant. -/
theorem ThreadsafeMemo.reachable_wf (run : F → POut T)
    (m : ThreadsafeMemo T F) (h : ThreadsafeMemo.Reachable run m) :
    ThreadsafeMemo.Wf m := by
  induction h with
  | new f =>
    exact Or.inl ⟨rfl, rfl, rfl⟩
  | with_value v =>
    exact Or.inr (Or.inl ⟨rfl, rfl, rfl⟩)
  | get hm ih => exact ThreadsafeMemo.wf_get _ _ ih
  | try_get hm ih =>
    rw [(ThreadsafeMemo.try_get_frame _).1]
    exact ih
  | unpoison f hm ih => exact ThreadsafeMemo.wf_unpoison _ f ih
  | unpoison_with_value v hm ih =>
    exact ThreadsafeMemo.wf_unpoison_with_value _ v ih

/-- get on a cached cell returns the stored value, leaves the cell
unchanged and invokes no producer. -/
theorem ThreadsafeMemo.get_cached (run : F → POut T) (v : T) :
    ThreadsafeMemo.get run
      (⟨CALCULATED, ⟨none, some v⟩⟩ : ThreadsafeMemo T F)
      = (GetOut.ok v, ⟨CALCULATED, ⟨none, some v⟩⟩, 0) := by
  simp [ThreadsafeMemo.get, CALCULATED, POISONED]

/-- Iterated get on a cached cell never moves and never invokes. -/
theorem ThreadsafeMemo.getIter_cached (run : F → POut T) (v : T) (n : Nat) :
    ThreadsafeMemo.getIter run
      (⟨CALCULATED, ⟨none, some v⟩⟩ : ThreadsafeMemo T F) n
      = (⟨CALCULATED, ⟨none, some v⟩⟩, 0) := by
  induction n with
  | zero => rfl
  | succ k ih =>
    simp [ThreadsafeMemo.getIter, ThreadsafeMemo.get_cached, ih]

/-- The first get on a fresh cell whose producer returns v invokes the
producer once, caches v and returns it. -/
theorem ThreadsafeMemo.get_new (run : F → POut T) (f : F) (v : T)
    (hf : run f = POut.ok v) :
    ThreadsafeMemo.get run (ThreadsafeMemo.new f)
      = (GetOut.ok v, ⟨CALCULATED, ⟨none, some v⟩⟩, 1) := by
  simp [ThreadsafeMemo.get, ThreadsafeMemo.new, hf,
    UNCALCULATED, CALCULATED, POISONED]

/-- On a cell whose calculating flag is set, get panics with the reentry
message and leaves the cell unchanged, and try_get returns none. -/
theorem AliasableMemo.get_calculating (run : F → POut T)
    (m : AliasableMemo T F)
    (h : m.calculating_state = CalculatingState.Calculating) :
    AliasableMemo.get run m = (GetOut.reentryPanic, m, 0) ∧
    AliasableMemo.try_get m = none := by
  have ht : AliasableMemo.try_get m = none := by
    simp [AliasableMemo.try_get, h]
  refine ⟨?_, ht⟩
  simp [AliasableMemo.get, ht, h]

/-! ## Claims -/

/-- C1: for a ThreadsafeMemo built with new(producer), the first
successful get invokes the producer exactly once, caches its result and
returns it; every run of n ≥ 1 successive gets performs exactly one
producer invocation in total and ends in the cached cell; and a further
get on the cached cell returns the same value with zero invocations. -/
theorem c1_get_memoizes (run : F → POut T) (f : F) (v : T)
    (hf : run f = POut.ok v) :
    ThreadsafeMemo.get run (ThreadsafeMemo.new f)
      = (GetOut.ok v, ⟨CALCULATED, ⟨none, some v⟩⟩, 1) ∧
    (∀ n : Nat, 1 ≤ n →
      ThreadsafeMemo.getIter run (ThreadsafeMemo.new f) n
        = (⟨CALCULATED, ⟨none, some v⟩⟩, 1)) ∧
    ThreadsafeMemo.get run
      (⟨CALCULATED, ⟨none, some v⟩⟩ : ThreadsafeMemo T F)
      = (GetOut.ok v, ⟨CALCULATED, ⟨none, some v⟩⟩, 0) := by
  refine ⟨ThreadsafeMemo.get_new run f v hf, ?_,
    ThreadsafeMemo.get_cached run v⟩
  intro n hn
  cases n with
  | zero => exact absurd hn (by decide)
  | succ k =>
    simp [ThreadsafeMemo.getIter, ThreadsafeMemo.get_new run f v hf,
      ThreadsafeMemo.getIter_cached]

/-- Witness for C1 at producer code 0 interpreted by runConst. -/
theorem c1_witness :
    runConst 0 = POut.ok 212 ∧
    ThreadsafeMemo.getIter runConst (ThreadsafeMemo.new 0) 5
      = (⟨CALCULATED, ⟨none, some 212⟩⟩, 1) :=
  ⟨rfl, (c1_get_memoizes runConst 0 212 rfl).2.1 5 (by decide)⟩

/-- C2: a producer panic during get publishes POISONED (not WORKING) with
the producer slot already emptied; thereafter get, try_get, take and
try_take on any POISONED cell report the poisoned Err with zero producer
invocations, until unpoison or unpoison_with_value, both of which then
succeed. -/
theorem c2_poison_on_failure (run : F → POut T) (f : F)
    (hf : run f = POut.panic) :
    ThreadsafeMemo.get run (ThreadsafeMemo.new f)
      = (GetOut.producerPanic, ⟨POISONED, ⟨none, none⟩⟩, 1) ∧
    (ThreadsafeMemo.get run (ThreadsafeMemo.new f)).2.1.state ≠ WORKING ∧
    (∀ p : ThreadsafeMemo T F, p.state = POISONED →
      ThreadsafeMemo.get run p = (GetOut.errPoisoned, p, 0) ∧
      ThreadsafeMemo.try_get p = (TryOut.errPoisoned, p, 0) ∧
      ThreadsafeMemo.take run p = (TakeOut.errPoisoned, 0) ∧
      ThreadsafeMemo.try_take p = (TryOut.errPoisoned, 0) ∧
      (∀ g : F, (ThreadsafeMemo.unpoison p g).1 = true) ∧
      (∀ w : T, (ThreadsafeMemo.unpoison_with_value p w).1 = true)) := by
  refine ⟨?_, ?_, ?_⟩
  · simp [ThreadsafeMemo.get, ThreadsafeMemo.new, hf,
      UNCALCULATED, CALCULATED, POISONED]
  · simp [ThreadsafeMemo.get, ThreadsafeMemo.new, hf,
      UNCALCULATED, CALCULATED, POISONED, WORKING]
  · intro p hp
    refine ⟨?_, ?_, ?_, ?_, ?_, ?_⟩ <;>
      simp [ThreadsafeMemo.get, ThreadsafeMemo.try_get,
        ThreadsafeMemo.take, ThreadsafeMemo.try_take,
        ThreadsafeMemo.unpoison, ThreadsafeMemo.unpoison_with_value, hp]

/-- Witness for C2 at producer code 0 interpreted by runPanic. -/
theorem c2_witness :
    runPanic 0 = POut.panic ∧
    ThreadsafeMemo.get runPanic (ThreadsafeMemo.new 0)
      = (GetOut.producerPanic, ⟨POISONED, ⟨none, none⟩⟩, 1) :=
  ⟨rfl, (c2_poison_on_failure runPanic 0 rfl).1⟩

/-- C3: on a POISONED cell, unpoison installs the new producer, empties
the result slot, publishes UNCALCULATED and returns true;
unpoison_with_value empties the producer slot, installs the value,
publishes CALCULATED and returns true, and a subsequent get returns Ok of
that value without invoking any producer. -/
theorem c3_unpoison_success (run : F → POut T) (m : ThreadsafeMemo T F)
    (h : m.state = POISONED) (f : F) (v : T) :
    ThreadsafeMemo.unpoison m f
      = (true, ⟨UNCALCULATED, ⟨some f, none⟩⟩) ∧
    ThreadsafeMemo.unpoison_with_value m v
      = (true, ⟨CALCULATED, ⟨none, some v⟩⟩) ∧
    ThreadsafeMemo.get run (ThreadsafeMemo.unpoison_with_value m v).2
      = (GetOut.ok v, ⟨CALCULATED, ⟨none, some v⟩⟩, 0) := by
  refine ⟨?_, ?_, ?_⟩
  · simp [ThreadsafeMemo.unpoison, h]
  · simp [ThreadsafeMemo.unpoison_with_value, h]
  · simp [ThreadsafeMemo.unpoison_with_value, h,
      ThreadsafeMemo.get_cached run v]

/-- Witness for C3 on an explicitly poisoned cell. -/
theorem c3_witness :
    (⟨POISONED, ⟨none, none⟩⟩ : ThreadsafeMemo Nat Nat).state = POISONED ∧
    ThreadsafeMemo.unpoison
      (⟨POISONED, ⟨none, none⟩⟩ : ThreadsafeMemo Nat Nat) 7
      = (true, ⟨UNCALCULATED, ⟨some 7, none⟩⟩) ∧
    ThreadsafeMemo.unpoison_with_value
      (⟨POISONED, ⟨none, none⟩⟩ : ThreadsafeMemo Nat Nat) 212
      = (true, ⟨CALCULATED, ⟨none, some 212⟩⟩) :=
  ⟨rfl, (c3_unpoison_success runConst _ rfl 7 212).1,
    (c3_unpoison_success runConst _ rfl 7 212).2.1⟩

/-- C4: on a cell that is not POISONED, unpoison and unpoison_with_value
return false and leave the cell completely unchanged. -/
theorem c4_unpoison_noop (m : ThreadsafeMemo T F)
    (h : m.state ≠ POISONED) (f : F) (v : T) :
    ThreadsafeMemo.unpoison m f = (false, m) ∧
    ThreadsafeMemo.unpoison_with_value m v = (false, m) := by
  constructor
  · simp [ThreadsafeMemo.unpoison, h]
  · simp [ThreadsafeMemo.unpoison_with_value, h]

/-- Witness for C4 on a fresh (UNCALCULATED) cell. -/
theorem c4_witness :
    (ThreadsafeMemo.new 0 : ThreadsafeMemo Nat Nat).state ≠ POISONED ∧
    ThreadsafeMemo.unpoison (ThreadsafeMemo.new 0 : ThreadsafeMemo Nat Nat) 7
      = (false, ThreadsafeMemo.new 0) ∧
    ThreadsafeMemo.unpoison_with_value
      (ThreadsafeMemo.new 0 : ThreadsafeMemo Nat Nat) 212
      = (false, ThreadsafeMemo.new 0) :=
  ⟨by decide, (c4_unpoison_noop (ThreadsafeMemo.new 0) (by decide) 7 212).1,
    (c4_unpoison_noop (ThreadsafeMemo.new 0) (by decide) 7 212).2⟩

/-- C5 counterexample: poisoning a fresh cell through get with a panicking
producer reaches a POISONED cell whose interior has BOTH slots empty —
the producer slot was emptied by take() before the failed invocation and
no result was stored — so the claimed "exactly one of the two shapes"
fails on a reachable state. -/
theorem c5_counterexample :
    ThreadsafeMemo.Reachable runPanic
      (ThreadsafeMemo.get runPanic (ThreadsafeMemo.new 0)).2.1 ∧
    (ThreadsafeMemo.get runPanic (ThreadsafeMemo.new 0)).2.1.state
      = POISONED ∧
    ¬ specInteriorShape
      (ThreadsafeMemo.get runPanic (ThreadsafeMemo.new 0)).2.1 :=
  ⟨ThreadsafeMemo.Reachable.get (ThreadsafeMemo.Reachable.new 0),
    by decide, by unfold specInteriorShape; decide⟩

/-- C5 (amended): every cell reachable through the public operations
satisfies the shape the code actually maintains: UNCALCULATED holds
(producer present, result absent), CALCULATED holds (producer absent,
result present), and POISONED holds BOTH slots empty — in the POISONED
state the claimed "exactly one shape" does not hold. -/
theorem c5_reachable_interior_shape (run : F → POut T)
    (m : ThreadsafeMemo T F) (h : ThreadsafeMemo.Reachable run m) :
    ThreadsafeMemo.Wf m :=
  ThreadsafeMemo.reachable_wf run m h

/-- Witness for C5 (amended) on a freshly constructed cell. -/
theorem c5_witness :
    ThreadsafeMemo.Reachable runConst
      (ThreadsafeMemo.new 0 : ThreadsafeMemo Nat Nat) ∧
    ThreadsafeMemo.Wf (ThreadsafeMemo.new 0 : ThreadsafeMemo Nat Nat) :=
  ⟨ThreadsafeMemo.Reachable.new 0,
    c5_reachable_interior_shape runConst _ (ThreadsafeMemo.Reachable.new 0)⟩

/-- C6 counterexample: on the cell state observed while the producer is
running (calculating flag set, producer taken out), try_get returns the
absent sentinel none — it does not panic — while get does panic with the
reentry message. -/
theorem c6_counterexample :
    AliasableMemo.try_get
      (⟨CalculatingState.Calculating, ⟨none, none⟩⟩ : AliasableMemo Nat Nat)
      = none ∧
    (AliasableMemo.get runConst
      (⟨CalculatingState.Calculating, ⟨none, none⟩⟩ :
        AliasableMemo Nat Nat)).1 = GetOut.reentryPanic :=
  ⟨rfl, rfl⟩

/-- C6 (amended): on an AliasableMemo whose calculating flag is set
(reentry), get fails fatally with the reentry panic, leaving the cell
unchanged and invoking no producer; try_get, by contrast, does not fail —
it returns the absent sentinel none. -/
theorem c6_reentry (run : F → POut T) (m : AliasableMemo T F)
    (h : m.calculating_state = CalculatingState.Calculating) :
    AliasableMemo.get run m = (GetOut.reentryPanic, m, 0) ∧
    AliasableMemo.try_get m = none :=
  AliasableMemo.get_calculating run m h

/-- Witness for C6 (amended) on an explicit mid-production cell. -/
theorem c6_witness :
    (⟨CalculatingState.Calculating, ⟨some 0, none⟩⟩ :
      AliasableMemo Nat Nat).calculating_state
      = CalculatingState.Calculating ∧
    AliasableMemo.get runConst
      (⟨CalculatingState.Calculating, ⟨some 0, none⟩⟩ : AliasableMemo Nat Nat)
      = (GetOut.reentryPanic,
         ⟨CalculatingState.Calculating, ⟨some 0, none⟩⟩, 0) :=
  ⟨rfl, (c6_reentry runConst _ rfl).1⟩

/-- C7: consuming extraction on terminal states: POISONED fails with the
poisoned Err for both take and try_take with no invocation; UNCALCULATED
makes take invoke the producer exactly once and return its result, while
try_take returns Ok(None) with no invocation; CALCULATED makes both return
the stored result with no invocation. -/
theorem c7_take_terminal (run : F → POut T) :
    (∀ m : ThreadsafeMemo T F, m.state = POISONED →
      ThreadsafeMemo.take run m = (TakeOut.errPoisoned, 0) ∧
      ThreadsafeMemo.try_take m = (TryOut.errPoisoned, 0)) ∧
    (∀ (m : ThreadsafeMemo T F) (g : F) (w : T), m.state = UNCALCULATED →
      m.core.func = some g → m.core.value = none → run g = POut.ok w →
      ThreadsafeMemo.take run m = (TakeOut.ok w, 1)) ∧
    (∀ m : ThreadsafeMemo T F, m.state = UNCALCULATED →
      ThreadsafeMemo.try_take m = (TryOut.ok none, 0)) ∧
    (∀ (m : ThreadsafeMemo T F) (w : T), m.state = CALCULATED →
      m.core.func = none → m.core.value = some w →
      ThreadsafeMemo.take run m = (TakeOut.ok w, 0) ∧
      ThreadsafeMemo.try_take m = (TryOut.ok (some w), 0)) := by
  refine ⟨?_, ?_, ?_, ?_⟩
  · intro m hp
    constructor <;> simp [ThreadsafeMemo.take, ThreadsafeMemo.try_take, hp]
  · intro m g w hs hg hv hr
    simp [ThreadsafeMemo.take, hs, hg, hv, hr,
      UNCALCULATED, CALCULATED, POISONED]
  · intro m hs
    simp [ThreadsafeMemo.try_take, hs, UNCALCULATED, CALCULATED, POISONED]
  · intro m w hs hg hv
    constructor <;>
      simp [ThreadsafeMemo.take, ThreadsafeMemo.try_take, hs, hg, hv,
        UNCALCULATED, CALCULATED, POISONED]

/-- Witness for C7: take on a fresh cell invokes the producer once. -/
theorem c7_witness :
    (ThreadsafeMemo.new 0 : ThreadsafeMemo Nat Nat).state = UNCALCULATED ∧
    ThreadsafeMemo.take runConst (ThreadsafeMemo.new 0)
      = (TakeOut.ok 212, 1) :=
  ⟨rfl,
    (c7_take_terminal runConst).2.1 (ThreadsafeMemo.new 0) 0 212
      rfl rfl rfl rfl⟩

/-- C8: for every value v and every variant, with_value(v).get() returns
v and with_value(v).take() returns v, with zero producer invocations and
(for get) the cell left unchanged. -/
theorem c8_with_value_roundtrip (run : F → POut T) (v : T) :
    Memo.get run (Memo.with_value v)
      = (GetOut.ok v, Memo.with_value v, 0) ∧
    Memo.take run (Memo.with_value v) = (TakeOut.ok v, 0) ∧
    AliasableMemo.get run (AliasableMemo.with_value v)
      = (GetOut.ok v, AliasableMemo.with_value v, 0) ∧
    AliasableMemo.take run (AliasableMemo.with_value v)
      = (TakeOut.ok v, 0) ∧
    ThreadsafeMemo.get run (ThreadsafeMemo.with_value v)
      = (GetOut.ok v, ThreadsafeMemo.with_value v, 0) ∧
    ThreadsafeMemo.take run (ThreadsafeMemo.with_value v)
      = (TakeOut.ok v, 0) := by
  refine ⟨rfl, rfl, rfl, rfl, ?_, ?_⟩ <;>
    simp [ThreadsafeMemo.get, ThreadsafeMemo.take,
      ThreadsafeMemo.with_value, UNCALCULATED, CALCULATED, POISONED]

/-- C9: try_get on any reachable cell returns the stored result when
CALCULATED, the poisoned Err when POISONED and Ok(None) in every other
state, never invokes a producer and returns the cell unchanged. -/
theorem c9_try_get_peek (run : F → POut T) (m : ThreadsafeMemo T F)
    (h : ThreadsafeMemo.Reachable run m) :
    (ThreadsafeMemo.try_get m).2.1 = m ∧
    (ThreadsafeMemo.try_get m).2.2 = 0 ∧
    (m.state = CALCULATED →
      ∃ v, m.core.value = some v ∧
        (ThreadsafeMemo.try_get m).1 = TryOut.ok (some v)) ∧
    (m.state = POISONED →
      (ThreadsafeMemo.try_get m).1 = TryOut.errPoisoned) ∧
    (m.state ≠ CALCULATED → m.state ≠ POISONED →
      (ThreadsafeMemo.try_get m).1 = TryOut.ok none) := by
  obtain ⟨hb1, hb2⟩ := ThreadsafeMemo.try_get_frame m
  refine ⟨hb1, hb2, ?_, ?_, ?_⟩
  · intro hc
    rcases ThreadsafeMemo.reachable_wf run m h with
      ⟨h1, _, _⟩ | ⟨h1, h2, h3⟩ | ⟨h1, _, _⟩
    · rw [hc] at h1
      exact absurd h1 (by decide)
    · obtain ⟨v, hv⟩ := Option.isSome_iff_exists.mp h3
      exact ⟨v, hv, by simp [ThreadsafeMemo.try_get, hc, hv,
        CALCULATED, POISONED]⟩
    · rw [hc] at h1
      exact absurd h1 (by decide)
  · intro hp
    simp [ThreadsafeMemo.try_get, hp]
  · intro hc hp
    simp [ThreadsafeMemo.try_get, hc, hp]

/-- Witness for C9 on a fresh (UNCALCULATED) cell. -/
theorem c9_witness :
    (ThreadsafeMemo.try_get
      (ThreadsafeMemo.new 0 : ThreadsafeMemo Nat Nat)).2.1
      = ThreadsafeMemo.new 0 ∧
    (ThreadsafeMemo.try_get
      (ThreadsafeMemo.new 0 : ThreadsafeMemo Nat Nat)).1
      = TryOut.ok none :=
  ⟨(c9_try_get_peek runConst _ (ThreadsafeMemo.Reachable.new 0)).1,
    (c9_try_get_peek runConst _ (ThreadsafeMemo.Reachable.new 0)).2.2.2.2
      (by decide) (by decide)⟩

/-- C10: an AliasableMemo whose producer panics during get is left with
the calculating flag still set (there is no finalizer guard) and the
producer slot emptied; every subsequent get on that cell panics with the
reentry message, changes nothing and invokes no producer — the cell is
permanently unusable, with no poisoned state and no recovery. -/
theorem c10_aliasable_panic_permanent (run : F → POut T) (f : F)
    (hf : run f = POut.panic) :
    AliasableMemo.get run (AliasableMemo.new f)
      = (GetOut.producerPanic,
         ⟨CalculatingState.Calculating, ⟨none, none⟩⟩, 1) ∧
    (∀ mm : Memo T F,
      AliasableMemo.get run ⟨CalculatingState.Calculating, mm⟩
        = (GetOut.reentryPanic,
           ⟨CalculatingState.Calculating, mm⟩, 0)) := by
  constructor
  · simp [AliasableMemo.get, AliasableMemo.new, AliasableMemo.try_get,
      Memo.new, Memo.get, hf]
  · intro mm
    exact (AliasableMemo.get_calculating run
      ⟨CalculatingState.Calculating, mm⟩ rfl).1

/-- Witness for C10 at producer code 0 interpreted by runPanic. -/
theorem c10_witness :
    runPanic 0 = POut.panic ∧
    AliasableMemo.get runPanic (AliasableMemo.new 0)
      = (GetOut.producerPanic,
         ⟨CalculatingState.Calculating, ⟨none, none⟩⟩, 1) :=
  ⟨rfl, (c10_aliasable_panic_permanent runPanic 0 rfl).1⟩
